import Mathlib

/-!
Shallow embedding of the flight-reservation core in
`src/sistema_reserva_vuelos.py` (the validated variant: `Pasajero`, `Vuelo`,
`Reserva`, `GestorReservas`).

Python reference semantics are modelled explicitly: `Reserva` objects live in
a heap (`List Reserva`, addressed by allocation index), flights hold lists of
heap indices, and the registry holds the passenger list, the flight list, the
global reservation history (heap indices) and the heap itself.  Failing
methods return `Except DomainError _`; operations that mutate state return
the updated state together with the `Except` result, so that what Python left
unchanged before a `raise` is exactly what the model leaves unchanged.
-/

namespace SistemaReservaVuelos

/-! ## Python string primitives used by the validators -/

/-- Whitespace characters recognised by Python `str.strip()` and `\s`
(ASCII range; exotic Unicode spaces do not occur in this domain). -/
def esEspacioPy (c : Char) : Bool :=
  c == ' ' || c == '\t' || c == '\n' || c == '\r' || c == '\x0b' || c == '\x0c'

/-- `str.strip()` on the character list: drop leading and trailing whitespace. -/
def stripChars (l : List Char) : List Char :=
  ((l.dropWhile esEspacioPy).reverse.dropWhile esEspacioPy).reverse

/-- Python `s.strip()`. -/
def pyStrip (s : String) : String := ⟨stripChars s.data⟩

/-- Uppercase for the character set of this domain (ASCII letters plus the
accented letters accepted by the name regex), as Python `str.upper()` acts
on them. -/
def toUpperPy (c : Char) : Char :=
  if c == 'á' then 'Á' else if c == 'é' then 'É' else if c == 'í' then 'Í'
  else if c == 'ó' then 'Ó' else if c == 'ú' then 'Ú' else if c == 'ñ' then 'Ñ'
  else c.toUpper

/-- Lowercase for the same character set, as Python `str.lower()`. -/
def toLowerPy (c : Char) : Char :=
  if c == 'Á' then 'á' else if c == 'É' then 'é' else if c == 'Í' then 'í'
  else if c == 'Ó' then 'ó' else if c == 'Ú' then 'ú' else if c == 'Ñ' then 'ñ'
  else c.toLower

/-- The letters of the name alphabet of `_validar_nombre`:
`a-zA-ZáéíóúÁÉÍÓÚñÑ`. -/
def esAlfaPy (c : Char) : Bool :=
  ('a' ≤ c && c ≤ 'z') || ('A' ≤ c && c ≤ 'Z')
  || c == 'á' || c == 'é' || c == 'í' || c == 'ó' || c == 'ú'
  || c == 'Á' || c == 'É' || c == 'Í' || c == 'Ó' || c == 'Ú'
  || c == 'ñ' || c == 'Ñ'

/-- One step of Python `str.title()`: a letter is uppercased when the
previous character was not a letter, lowercased otherwise. -/
def tituloAux : List Char → Bool → List Char
  | [], _ => []
  | c :: resto, prevAlfa =>
    (if esAlfaPy c then (if prevAlfa then toLowerPy c else toUpperPy c) else c)
      :: tituloAux resto (esAlfaPy c)

/-- Python `s.title()` (restricted to this domain's alphabet). -/
def pyTitle (s : String) : String := ⟨tituloAux s.data false⟩

/-- Python `s.upper()` (restricted to this domain's alphabet). -/
def pyUpper (s : String) : String := ⟨s.data.map toUpperPy⟩

/-- Character class of the name regex `[a-zA-ZáéíóúÁÉÍÓÚñÑ\s]`. -/
def esCaracterNombre (c : Char) : Bool := esAlfaPy c || esEspacioPy c

/-! ## Errors

Python raises `ValueError` from the entity validators and the custom
`ReservaException` from the domain operations; both are carried here with
their exact message strings. -/

inductive DomainError where
  | valueError (msg : String)
  | reservaException (msg : String)
deriving DecidableEq

/-- `True` exactly on the `.error` case; Python: the call raised. -/
def esError {ε α : Type} : Except ε α → Bool
  | .error _ => true
  | .ok _ => false

instance {ε α : Type} [DecidableEq ε] [DecidableEq α] : DecidableEq (Except ε α) :=
  fun x y =>
    match x, y with
    | .error e, .error f =>
      if h : e = f then isTrue (by rw [h])
      else isFalse (by intro hc; cases hc; exact h rfl)
    | .error _, .ok _ => isFalse (by intro hc; cases hc)
    | .ok _, .error _ => isFalse (by intro hc; cases hc)
    | .ok a, .ok b =>
      if h : a = b then isTrue (by rw [h])
      else isFalse (by intro hc; cases hc; exact h rfl)

/-! ## EstadoReserva and Pasajero -/

inductive EstadoReserva where
  | activa
  | cancelada
  | completada
deriving DecidableEq

structure Pasajero where
  nombre : String
  apellido : String
  documento : String
deriving DecidableEq

/-- `Pasajero.__eq__`: equality is document equality (the `isinstance`
branch disappears in the typed embedding). -/
def pasajeroEq (p q : Pasajero) : Bool := p.documento == q.documento

/-- `Pasajero._validar_nombre`.  `not nombre or not nombre.strip()` is
equivalent to the stripped string being empty; the regex
`^[a-zA-ZáéíóúÁÉÍÓÚñÑ\s]+$` is a nonempty all-`esCaracterNombre` check. -/
def validar_nombre (nombre : String) : Except DomainError String :=
  if pyStrip nombre == "" then
    .error (.valueError "El nombre no puede estar vacío")
  else if (pyStrip nombre).data.length < 2 then
    .error (.valueError "El nombre debe tener al menos 2 caracteres")
  else if !(!(pyStrip nombre).data.isEmpty && (pyStrip nombre).data.all esCaracterNombre) then
    .error (.valueError "El nombre solo puede contener letras y espacios")
  else
    .ok (pyTitle (pyStrip nombre))

/-- `Pasajero._validar_documento`; the regex `^\d{5,12}$` is an
all-digits check with length between 5 and 12. -/
def validar_documento (documento : String) : Except DomainError String :=
  if pyStrip documento == "" then
    .error (.valueError "El documento no puede estar vacío")
  else if !((pyStrip documento).data.all Char.isDigit
            && decide (5 ≤ (pyStrip documento).data.length)
            && decide ((pyStrip documento).data.length ≤ 12)) then
    .error (.valueError "El documento debe tener entre 5 y 12 dígitos")
  else
    .ok (pyStrip documento)

/-- `Pasajero.__init__`: validates the three fields in order and builds the
passenger from the normalized values. -/
def mkPasajero (nombre apellido documento : String) : Except DomainError Pasajero :=
  match validar_nombre nombre with
  | .error e => .error e
  | .ok n =>
    match validar_nombre apellido with
    | .error e => .error e
    | .ok a =>
      match validar_documento documento with
      | .error e => .error e
      | .ok d => .ok { nombre := n, apellido := a, documento := d }

/-! ## Vuelo -/

/-- A flight; `reservas` holds heap indices of the `Reserva` objects added
through `agregar_reserva`, in insertion order. -/
structure Vuelo where
  numero : String
  origen : String
  destino : String
  fecha : String
  capacidadTotal : Int
  reservas : List Nat
deriving DecidableEq

/-- `Vuelo.__eq__`: equality is flight-number equality. -/
def vueloEq (v w : Vuelo) : Bool := v.numero == w.numero

/-- Splits the regex `^[A-Z]{1,3}\d{3,4}$` into the leading uppercase run
and the rest; equivalent to the regex on any input. -/
def coincideNumeroVuelo (l : List Char) : Bool :=
  let letras := l.takeWhile (fun c => 'A' ≤ c && c ≤ 'Z')
  let resto := l.dropWhile (fun c => 'A' ≤ c && c ≤ 'Z')
  decide (1 ≤ letras.length) && decide (letras.length ≤ 3)
    && decide (3 ≤ resto.length) && decide (resto.length ≤ 4)
    && resto.all Char.isDigit

/-- `Vuelo._validar_numero_vuelo`: strip, uppercase, match the pattern. -/
def validar_numero_vuelo (numero : String) : Except DomainError String :=
  if pyStrip numero == "" then
    .error (.valueError "El número de vuelo no puede estar vacío")
  else if !coincideNumeroVuelo (pyUpper (pyStrip numero)).data then
    .error (.valueError "Formato de número de vuelo inválido (ej: V001, AA1234)")
  else
    .ok (pyUpper (pyStrip numero))

/-- `Vuelo._validar_ciudad`: nonempty after strip, at least 2 characters,
returned title-cased; no character-class restriction. -/
def validar_ciudad (ciudad : String) : Except DomainError String :=
  if pyStrip ciudad == "" then
    .error (.valueError "La ciudad no puede estar vacía")
  else if (pyStrip ciudad).data.length < 2 then
    .error (.valueError "El nombre de la ciudad debe tener al menos 2 caracteres")
  else
    .ok (pyTitle (pyStrip ciudad))

def esBisiesto (y : Nat) : Bool :=
  y % 4 == 0 && (y % 100 != 0 || y % 400 == 0)

def diasEnMes (y m : Nat) : Nat :=
  if m == 2 then (if esBisiesto y then 29 else 28)
  else if m == 4 || m == 6 || m == 9 || m == 11 then 30
  else 31

/-- Reads a nonempty all-digit character run as a number. -/
def digitosA (l : List Char) : Option Nat :=
  if !l.isEmpty && l.all Char.isDigit then
    some (l.foldl (fun n c => n * 10 + (c.toNat - 48)) 0)
  else none

/-- Splits a character list on a separator character (Python `str.split(sep)`
shape, used to model the `%Y-%m-%d` format). -/
def partirEn (sep : Char) : List Char → List (List Char)
  | [] => [[]]
  | c :: resto =>
    match partirEn sep resto with
    | [] => if c == sep then [[], [c]] else [[c]]
    | h :: t => if c == sep then [] :: h :: t else (c :: h) :: t

/-- `Vuelo._validar_fecha`: models `datetime.strptime(fecha, '%Y-%m-%d')`,
which parses year (up to 4 digits), month and day (up to 2 digits each)
separated by `-` and checks the result is a real calendar date; on success
the original string is returned unchanged. -/
def validar_fecha (fecha : String) : Except DomainError String :=
  match partirEn '-' fecha.data with
  | [ys, ms, ds] =>
    match digitosA ys, digitosA ms, digitosA ds with
    | some y, some m, some d =>
      if ys.length ≤ 4 ∧ ms.length ≤ 2 ∧ ds.length ≤ 2
          ∧ 1 ≤ y ∧ y ≤ 9999 ∧ 1 ≤ m ∧ m ≤ 12 ∧ 1 ≤ d ∧ d ≤ diasEnMes y m then
        .ok fecha
      else .error (.valueError "Formato de fecha inválido. Use YYYY-MM-DD")
    | _, _, _ => .error (.valueError "Formato de fecha inválido. Use YYYY-MM-DD")
  | _ => .error (.valueError "Formato de fecha inválido. Use YYYY-MM-DD")

/-- `Vuelo._validar_capacidad` (the `isinstance(capacidad, int)` branch is
discharged by the `Int` type). -/
def validar_capacidad (capacidad : Int) : Except DomainError Int :=
  if capacidad ≤ 0 then
    .error (.valueError "La capacidad debe ser un número entero positivo")
  else if capacidad > 1000 then
    .error (.valueError "La capacidad no puede exceder 1000 pasajeros")
  else
    .ok capacidad

/-- `Vuelo.__init__`: validates every field in order; the reservation list
starts empty. -/
def mkVuelo (numero origen destino fecha : String) (capacidad : Int) :
    Except DomainError Vuelo :=
  match validar_numero_vuelo numero with
  | .error e => .error e
  | .ok n =>
    match validar_ciudad origen with
    | .error e => .error e
    | .ok o =>
      match validar_ciudad destino with
      | .error e => .error e
      | .ok de =>
        match validar_fecha fecha with
        | .error e => .error e
        | .ok f =>
          match validar_capacidad capacidad with
          | .error e => .error e
          | .ok c =>
            .ok { numero := n, origen := o, destino := de, fecha := f,
                  capacidadTotal := c, reservas := [] }

/-! ## Reserva and the reservation heap

A `Reserva` stores the identity of its flight (`numero`, the key `Vuelo.__eq__`
compares), its passenger and its state.  The creation timestamp
(`datetime.now()`) is real time and is not modelled; no claim refers to it.
Constructed reservation objects live in a heap addressed by allocation index. -/

structure Reserva where
  vueloNumero : String
  pasajero : Pasajero
  estado : EstadoReserva
deriving DecidableEq

/-- `Reserva.__init__`: the initial state is always ACTIVA. -/
def mkReserva (numeroVuelo : String) (p : Pasajero) : Reserva :=
  { vueloNumero := numeroVuelo, pasajero := p, estado := .activa }

/-- Placeholder for out-of-range heap reads; never reached from states built
by the operations (every stored index is an allocation index). -/
def reservaDefault : Reserva :=
  { vueloNumero := "", pasajero := { nombre := "", apellido := "", documento := "" },
    estado := .cancelada }

def heapGet (heap : List Reserva) (i : Nat) : Reserva :=
  heap.getD i reservaDefault

def esActiva (heap : List Reserva) (i : Nat) : Bool :=
  (heapGet heap i).estado == .activa

def docDe (heap : List Reserva) (i : Nat) : String :=
  (heapGet heap i).pasajero.documento

/-- `Reserva.cancelar`: only an ACTIVA reservation may be cancelled. -/
def Reserva.cancelar (r : Reserva) : Except DomainError Reserva :=
  if r.estado ≠ .activa then
    .error (.reservaException "Solo se pueden cancelar reservas activas")
  else
    .ok { r with estado := .cancelada }

/-- `Reserva.completar`: only an ACTIVA reservation may be completed. -/
def Reserva.completar (r : Reserva) : Except DomainError Reserva :=
  if r.estado ≠ .activa then
    .error (.reservaException "Solo se pueden completar reservas activas")
  else
    .ok { r with estado := .completada }

/-- `reserva.cancelar()` applied to the object at heap index `rid`; the heap
is unchanged when the call raises. -/
def cancelarEnHeap (heap : List Reserva) (rid : Nat) :
    List Reserva × Except DomainError Unit :=
  match (heapGet heap rid).cancelar with
  | .error e => (heap, .error e)
  | .ok r => (heap.set rid r, .ok ())

/-- `reserva.completar()` applied to the object at heap index `rid`. -/
def completarEnHeap (heap : List Reserva) (rid : Nat) :
    List Reserva × Except DomainError Unit :=
  match (heapGet heap rid).completar with
  | .error e => (heap, .error e)
  | .ok r => (heap.set rid r, .ok ())

/-- `Vuelo.capacidad_disponible`: recomputed from the reservation list on
every call — total capacity minus the number of ACTIVA reservations. -/
def capacidad_disponible (heap : List Reserva) (v : Vuelo) : Int :=
  v.capacidadTotal - ((v.reservas.filter (fun i => esActiva heap i)).length : Int)

/-- `Vuelo.agregar_reserva`: capacity check first, then the
duplicate-active-passenger scan (`r.pasajero == reserva.pasajero and
r.estado == ACTIVA`), then append.  Nothing checks that the reservation
references this flight. -/
def agregar_reserva (heap : List Reserva) (v : Vuelo) (rid : Nat) :
    Except DomainError Vuelo :=
  if capacidad_disponible heap v ≤ 0 then
    .error (.reservaException "No hay capacidad disponible en este vuelo")
  else if v.reservas.any (fun j =>
      pasajeroEq (heapGet heap j).pasajero (heapGet heap rid).pasajero
        && esActiva heap j) then
    .error (.reservaException "Este pasajero ya tiene una reserva activa en este vuelo")
  else
    .ok { v with reservas := v.reservas ++ [rid] }

/-! ## GestorReservas -/

/-- The registry: passengers, flights, the global reservation history
(heap indices, insertion-ordered) and the reservation heap. -/
structure GestorReservas where
  pasajeros : List Pasajero
  vuelos : List Vuelo
  reservas : List Nat
  heap : List Reserva
deriving DecidableEq

/-- `GestorReservas.agregar_pasajero`: the duplicate scan compares each
stored (normalized) `documento` against the raw `documento` argument, then
the constructor validates and normalizes. -/
def agregar_pasajero (g : GestorReservas) (nombre apellido documento : String) :
    GestorReservas × Except DomainError Pasajero :=
  if g.pasajeros.any (fun p => p.documento == documento) then
    (g, .error (.reservaException "Ya existe un pasajero con ese documento"))
  else
    match mkPasajero nombre apellido documento with
    | .error e => (g, .error e)
    | .ok p => ({ g with pasajeros := g.pasajeros ++ [p] }, .ok p)

/-- The `for`-loop of `buscar_pasajero_por_documento`: first stored passenger
whose `documento` equals the query verbatim. -/
def buscarDoc : List Pasajero → String → Option Pasajero
  | [], _ => none
  | p :: resto, d => if p.documento == d then some p else buscarDoc resto d

def buscar_pasajero_por_documento (g : GestorReservas) (documento : String) :
    Option Pasajero :=
  buscarDoc g.pasajeros documento

/-- The `for`-loop of `buscar_vuelo_por_numero`. -/
def buscarNum : List Vuelo → String → Option Vuelo
  | [], _ => none
  | v :: resto, n => if v.numero == n then some v else buscarNum resto n

def buscar_vuelo_por_numero (g : GestorReservas) (numero : String) :
    Option Vuelo :=
  buscarNum g.vuelos numero

/-- Replaces the first flight with the given number — the object
`buscar_vuelo_por_numero` returned and `crear_reserva` mutates in place. -/
def setFirstVuelo : List Vuelo → String → Vuelo → List Vuelo
  | [], _, _ => []
  | v :: resto, numero, nuevo =>
    if v.numero == numero then nuevo :: resto
    else v :: setFirstVuelo resto numero nuevo

/-- `GestorReservas.crear_reserva`: look up passenger, look up flight,
construct the reservation (a heap allocation), call `agregar_reserva`
(propagating its errors — the new object then stays unreferenced), and only
on success record the reservation in the flight (in place) and in the
history. -/
def crear_reserva (g : GestorReservas) (numeroVuelo documentoPasajero : String) :
    GestorReservas × Except DomainError Nat :=
  match buscar_pasajero_por_documento g documentoPasajero with
  | none => (g, .error (.reservaException "Pasajero no encontrado"))
  | some pasajero =>
    match buscar_vuelo_por_numero g numeroVuelo with
    | none => (g, .error (.reservaException "Vuelo no encontrado"))
    | some vuelo =>
      match agregar_reserva (g.heap ++ [mkReserva vuelo.numero pasajero]) vuelo
          g.heap.length with
      | .error e =>
        ({ g with heap := g.heap ++ [mkReserva vuelo.numero pasajero] }, .error e)
      | .ok v =>
        ({ g with heap := g.heap ++ [mkReserva vuelo.numero pasajero],
                  vuelos := setFirstVuelo g.vuelos vuelo.numero v,
                  reservas := g.reservas ++ [g.heap.length] }, .ok g.heap.length)

/-- Cancelling the reservation object `rid` while it is held by the registry:
the state change is visible through every list referencing `rid`. -/
def cancelar_reserva_obj (g : GestorReservas) (rid : Nat) :
    GestorReservas × Except DomainError Unit :=
  ({ g with heap := (cancelarEnHeap g.heap rid).1 }, (cancelarEnHeap g.heap rid).2)

def completar_reserva_obj (g : GestorReservas) (rid : Nat) :
    GestorReservas × Except DomainError Unit :=
  ({ g with heap := (completarEnHeap g.heap rid).1 }, (completarEnHeap g.heap rid).2)

/-- A direct `vuelo.agregar_reserva(reserva)` call on the flight at index
`i` of the registry's list, with an already-constructed reservation `rid`
(possibly referencing another flight); the state is unchanged when the call
raises. -/
def agregarReservaEn (g : GestorReservas) (i rid : Nat) : GestorReservas :=
  match g.vuelos[i]? with
  | none => g
  | some v =>
    match agregar_reserva g.heap v rid with
    | .error _ => g
    | .ok v2 => { g with vuelos := g.vuelos.set i v2 }

/-! ## The seeded initial registry (`_inicializar_datos`) -/

def datosPasajeros : List (String × String × String) :=
  [("Juan", "Perez", "12345678"),
   ("Maria", "Gomez", "87654321"),
   ("Carlos", "Lopez", "11223344"),
   ("Ana", "Martinez", "44332211"),
   ("Pedro", "Rodriguez", "55667788"),
   ("Laura", "Gonzalez", "88776655"),
   ("Diego", "Santos", "99887766"),
   ("Isabel", "Fernandez", "66778899"),
   ("Andres", "Rios", "77889900"),
   ("Sofia", "Diaz", "00998877")]

def datosVuelos : List (String × String × String × String × Int) :=
  [("V001", "Buenos Aires", "Madrid", "2024-03-15", 150),
   ("V002", "Madrid", "Paris", "2024-03-16", 120),
   ("V003", "Paris", "Londres", "2024-03-17", 100),
   ("AA1234", "Buenos Aires", "New York", "2024-03-18", 200),
   ("IB5678", "Madrid", "Barcelona", "2024-03-19", 80)]

/-- The seeding loop: each sample passenger is appended when its constructor
succeeds and skipped when it raises. -/
def initPasajeros : List Pasajero :=
  datosPasajeros.foldl
    (fun acc t =>
      match mkPasajero t.1 t.2.1 t.2.2 with
      | .ok p => acc ++ [p]
      | .error _ => acc) []

def initVuelos : List Vuelo :=
  datosVuelos.foldl
    (fun acc t =>
      match mkVuelo t.1 t.2.1 t.2.2.1 t.2.2.2.1 t.2.2.2.2 with
      | .ok v => acc ++ [v]
      | .error _ => acc) []

/-- The singleton registry right after `__init__`. -/
def gestorInicial : GestorReservas :=
  { pasajeros := initPasajeros, vuelos := initVuelos, reservas := [], heap := [] }

/-! ## Reachable registry states

`Alcanzable` closes the seeded registry under the public operations:
adding a passenger, booking through `crear_reserva`, cancelling or
completing an existing reservation object, plus the object-level operations
a caller can perform directly — constructing a validated flight,
constructing a reservation object, and calling `agregar_reserva` on a
flight with an existing reservation object. -/

inductive Alcanzable : GestorReservas → Prop where
  | inicial : Alcanzable gestorInicial
  | pasoAgregarPasajero (g : GestorReservas) (n a d : String) :
      Alcanzable g → Alcanzable (agregar_pasajero g n a d).1
  | pasoCrearReserva (g : GestorReservas) (nv dp : String) :
      Alcanzable g → Alcanzable (crear_reserva g nv dp).1
  | pasoCancelar (g : GestorReservas) (rid : Nat) :
      rid < g.heap.length → Alcanzable g → Alcanzable (cancelar_reserva_obj g rid).1
  | pasoCompletar (g : GestorReservas) (rid : Nat) :
      rid < g.heap.length → Alcanzable g → Alcanzable (completar_reserva_obj g rid).1
  | pasoNuevoVuelo (g : GestorReservas) (n o de f : String) (c : Int) (v : Vuelo) :
      mkVuelo n o de f c = .ok v → Alcanzable g →
      Alcanzable { g with vuelos := g.vuelos ++ [v] }
  | pasoNuevaReserva (g : GestorReservas) (numero : String) (p : Pasajero) :
      Alcanzable g → Alcanzable { g with heap := g.heap ++ [mkReserva numero p] }
  | pasoAgregarReserva (g : GestorReservas) (i rid : Nat) :
      rid < g.heap.length → Alcanzable g → Alcanzable (agregarReservaEn g i rid)

/-! ## Invariants -/

/-- Number of ACTIVA reservations among the indices of `l`. -/
def cuentaActivas (heap : List Reserva) (l : List Nat) : Nat :=
  (l.filter (fun i => esActiva heap i)).length

/-- No two positions of the list hold ACTIVA reservations for the same
passenger document. -/
def SinDobleActiva (heap : List Reserva) (l : List Nat) : Prop :=
  List.Pairwise (fun i j =>
    ¬(esActiva heap i = true ∧ esActiva heap j = true ∧ docDe heap i = docDe heap j)) l

/-- Well-formedness of a flight with respect to the heap: positive total
capacity, in-bounds reservation indices, nonnegative available capacity,
and at most one active reservation per passenger. -/
def InvVuelo (heap : List Reserva) (v : Vuelo) : Prop :=
  1 ≤ v.capacidadTotal
  ∧ (∀ i ∈ v.reservas, i < heap.length)
  ∧ 0 ≤ capacidad_disponible heap v
  ∧ SinDobleActiva heap v.reservas

def InvGestor (g : GestorReservas) : Prop :=
  ∀ v ∈ g.vuelos, InvVuelo g.heap v

/-! ## Propositional reading of the validator conditions

These restate, as `Prop`s, exactly the checks `_validar_nombre` and
`_validar_documento` perform, for use in the characterization theorems. -/

/-- The conditions `_validar_nombre` accepts: nonempty after strip, at least
2 characters, every character in `[a-zA-ZáéíóúÁÉÍÓÚñÑ\s]`. -/
def nombreValido (s : String) : Prop :=
  pyStrip s ≠ "" ∧ 2 ≤ (pyStrip s).data.length
  ∧ ∀ c ∈ (pyStrip s).data, esCaracterNombre c = true

/-- The conditions `_validar_documento` accepts: after strip, an all-digit
string of length 5 to 12. -/
def documentoValido (s : String) : Prop :=
  (∀ c ∈ (pyStrip s).data, c.isDigit = true)
  ∧ 5 ≤ (pyStrip s).data.length ∧ (pyStrip s).data.length ≤ 12

instance (s : String) : Decidable (nombreValido s) := by
  unfold nombreValido; exact inferInstance

instance (s : String) : Decidable (documentoValido s) := by
  unfold documentoValido; exact inferInstance

/-- Follows the words of claim C6 ("letters — including accented Latin
letters — and spaces"): a Latin letter in the ASCII or Latin-1 range
(the Latin-1 Supplement letters are U+00C0 to U+00FF minus the two
operators `×` U+00D7 and `÷` U+00F7). -/
def esLetraLatinaSpec (c : Char) : Bool :=
  ('a' ≤ c && c ≤ 'z') || ('A' ≤ c && c ≤ 'Z')
  || (decide (0xC0 ≤ c.toNat) && decide (c.toNat ≤ 0xFF)
      && decide (c.toNat ≠ 0xD7) && decide (c.toNat ≠ 0xF7))

/-! ## Concrete states used by the witnesses and counterexamples -/

/-- The first sample passenger of `_inicializar_datos`, as stored. -/
def pasajeroJuan : Pasajero :=
  { nombre := "Juan", apellido := "Perez", documento := "12345678" }

/-- The first sample flight of `_inicializar_datos`, as stored. -/
def vueloV001 : Vuelo :=
  { numero := "V001", origen := "Buenos Aires", destino := "Madrid",
    fecha := "2024-03-15", capacidadTotal := 150, reservas := [] }

/-- A capacity-1 flight as its validated constructor returns it. -/
def vueloZ999 : Vuelo :=
  { numero := "Z999", origen := "Roma", destino := "Lima",
    fecha := "2024-05-01", capacidadTotal := 1, reservas := [] }

/-- The seeded registry extended with the capacity-1 flight `Z999`, after
booking passenger `12345678` on it: the flight is now full and carries an
ACTIVE reservation for that passenger. -/
def gestorLleno : GestorReservas :=
  (crear_reserva { gestorInicial with vuelos := gestorInicial.vuelos ++ [vueloZ999] }
    "Z999" "12345678").1

/-- A two-cell heap holding two ACTIVE reservation objects for the same
passenger (the second is the one `crear_reserva` constructs before
`agregar_reserva` decides). -/
def heapDoble : List Reserva :=
  [mkReserva "Y888" pasajeroJuan, mkReserva "Y888" pasajeroJuan]

/-- A capacity-2 flight already holding reservation object 0. -/
def vueloY888 : Vuelo :=
  { numero := "Y888", origen := "Roma", destino := "Lima",
    fecha := "2024-05-01", capacidadTotal := 2, reservas := [0] }

/-- A capacity-1 flight already holding reservation object 0: full. -/
def vueloW777 : Vuelo :=
  { numero := "W777", origen := "Roma", destino := "Lima",
    fecha := "2024-05-01", capacidadTotal := 1, reservas := [0] }

/-- A reservation object whose flight reference is `B222`, foreign to
`vueloA111` below. -/
def heapAjeno : List Reserva := [mkReserva "B222" pasajeroJuan]

def vueloA111 : Vuelo :=
  { numero := "A111", origen := "Roma", destino := "Lima",
    fecha := "2024-05-01", capacidadTotal := 3, reservas := [] }

/-! ## Heap lemmas -/

theorem heapGet_append (heap l : List Reserva) (i : Nat) (h : i < heap.length) :
    heapGet (heap ++ l) i = heapGet heap i := by
  simp [heapGet, List.getD_eq_getElem?_getD, List.getElem?_append_left h]

theorem esActiva_append (heap l : List Reserva) (i : Nat) (h : i < heap.length) :
    esActiva (heap ++ l) i = esActiva heap i := by
  simp [esActiva, heapGet_append heap l i h]

theorem docDe_append (heap l : List Reserva) (i : Nat) (h : i < heap.length) :
    docDe (heap ++ l) i = docDe heap i := by
  simp [docDe, heapGet_append heap l i h]

theorem heapGet_set_ne (heap : List Reserva) (rid i : Nat) (r : Reserva)
    (h : i ≠ rid) : heapGet (heap.set rid r) i = heapGet heap i := by
  simp [heapGet, List.getD_eq_getElem?_getD, List.getElem?_set_ne (Ne.symm h)]

theorem heapGet_set_self (heap : List Reserva) (rid : Nat) (r : Reserva)
    (h : rid < heap.length) : heapGet (heap.set rid r) rid = r := by
  simp [heapGet, List.getD_eq_getElem?_getD, List.getElem?_set_self h]

theorem heapGet_set_oob (heap : List Reserva) (rid : Nat) (r : Reserva)
    (h : ¬rid < heap.length) : heap.set rid r = heap :=
  List.set_eq_of_length_le (Nat.le_of_not_lt h)

/-! ## Counting lemmas -/

theorem cuentaActivas_congr (h1 h2 : List Reserva) (l : List Nat)
    (h : ∀ i ∈ l, esActiva h1 i = esActiva h2 i) :
    cuentaActivas h1 l = cuentaActivas h2 l := by
  unfold cuentaActivas
  rw [List.filter_congr h]

theorem cuentaActivas_append_one (heap : List Reserva) (l : List Nat) (x : Nat) :
    cuentaActivas heap (l ++ [x])
      = cuentaActivas heap l + (if esActiva heap x = true then 1 else 0) := by
  unfold cuentaActivas
  rw [List.filter_append]
  by_cases h : esActiva heap x = true <;> simp [h]

theorem cuentaActivas_mono (h1 h2 : List Reserva) (l : List Nat)
    (h : ∀ i, esActiva h2 i = true → esActiva h1 i = true) :
    cuentaActivas h2 l ≤ cuentaActivas h1 l := by
  induction l with
  | nil => simp [cuentaActivas]
  | cons a t ih =>
    simp only [cuentaActivas, List.filter_cons]
    by_cases h2a : esActiva h2 a = true
    · rw [if_pos h2a, if_pos (h a h2a)]
      simpa [cuentaActivas] using Nat.succ_le_succ ih
    · rw [if_neg h2a]
      by_cases h1a : esActiva h1 a = true
      · rw [if_pos h1a]
        exact Nat.le_succ_of_le ih
      · rw [if_neg h1a]
        exact ih

theorem capacidad_disponible_eq (heap : List Reserva) (v : Vuelo) :
    capacidad_disponible heap v
      = v.capacidadTotal - (cuentaActivas heap v.reservas : Int) := rfl

/-! ## Invariant transfer lemmas -/

theorem InvVuelo_append (heap l : List Reserva) (v : Vuelo)
    (h : InvVuelo heap v) : InvVuelo (heap ++ l) v := by
  obtain ⟨hcap, hbound, hdisp, hsin⟩ := h
  have hact : ∀ i ∈ v.reservas, esActiva (heap ++ l) i = esActiva heap i :=
    fun i hi => esActiva_append heap l i (hbound i hi)
  refine ⟨hcap, ?_, ?_, ?_⟩
  · intro i hi
    calc i < heap.length := hbound i hi
      _ ≤ (heap ++ l).length := by simp
  · rw [capacidad_disponible_eq, cuentaActivas_congr (heap ++ l) heap v.reservas hact]
    exact hdisp
  · refine List.Pairwise.imp_of_mem ?_ hsin
    intro a b ha hb hR hS
    refine hR ?_
    obtain ⟨s1, s2, s3⟩ := hS
    rw [esActiva_append heap l a (hbound a ha)] at s1
    rw [esActiva_append heap l b (hbound b hb)] at s2
    rw [docDe_append heap l a (hbound a ha), docDe_append heap l b (hbound b hb)] at s3
    exact ⟨s1, s2, s3⟩

/-- Unpacks a successful `agregar_reserva` call: positive available
capacity, no active reservation of the same passenger already on the
flight, and the result is the flight with `rid` appended. -/
theorem agregar_reserva_ok_elim (heap : List Reserva) (v : Vuelo) (rid : Nat)
    (v2 : Vuelo) (h : agregar_reserva heap v rid = .ok v2) :
    0 < capacidad_disponible heap v
    ∧ (∀ j ∈ v.reservas, ¬(docDe heap j = docDe heap rid ∧ esActiva heap j = true))
    ∧ v2 = { v with reservas := v.reservas ++ [rid] } := by
  unfold agregar_reserva at h
  split at h
  · exact absurd h (by simp)
  · rename_i hcap
    split at h
    · exact absurd h (by simp)
    · rename_i hdup
      refine ⟨by omega, ?_, by injection h with h2; exact h2.symm⟩
      intro j hj ⟨hdoc, hact⟩
      refine hdup ?_
      rw [List.any_eq_true]
      refine ⟨j, hj, ?_⟩
      rw [Bool.and_eq_true]
      constructor
      · simpa [pasajeroEq, docDe] using hdoc
      · exact hact

/-- The converse: when both checks pass the call succeeds. -/
theorem agregar_reserva_ok_intro (heap : List Reserva) (v : Vuelo) (rid : Nat)
    (hcap : 0 < capacidad_disponible heap v)
    (hdup : ∀ j ∈ v.reservas, ¬(docDe heap j = docDe heap rid ∧ esActiva heap j = true)) :
    agregar_reserva heap v rid = .ok { v with reservas := v.reservas ++ [rid] } := by
  unfold agregar_reserva
  rw [if_neg (by omega), if_neg]
  intro hany
  rw [List.any_eq_true] at hany
  obtain ⟨j, hj, hcond⟩ := hany
  rw [Bool.and_eq_true] at hcond
  refine hdup j hj ⟨?_, hcond.2⟩
  simpa [pasajeroEq, docDe] using hcond.1

theorem InvVuelo_agregar (heap : List Reserva) (v v2 : Vuelo) (rid : Nat)
    (hrid : rid < heap.length) (hok : agregar_reserva heap v rid = .ok v2)
    (hv : InvVuelo heap v) : InvVuelo heap v2 := by
  obtain ⟨hcap, hbound, _, hsin⟩ := hv
  obtain ⟨hpos, hdup, hv2⟩ := agregar_reserva_ok_elim heap v rid v2 hok
  subst hv2
  refine ⟨hcap, ?_, ?_, ?_⟩
  · intro i hi
    rcases List.mem_append.1 hi with h1 | h2
    · exact hbound i h1
    · rw [List.mem_singleton.1 h2]; exact hrid
  · rw [capacidad_disponible_eq]
    simp only [cuentaActivas_append_one]
    rw [capacidad_disponible_eq] at hpos
    by_cases hact : esActiva heap rid = true <;> simp [hact] <;> omega
  · rw [SinDobleActiva, List.pairwise_append]
    refine ⟨hsin, List.pairwise_singleton _ _, ?_⟩
    intro a ha b hb
    rw [List.mem_singleton.1 hb]
    intro ⟨s1, _, s3⟩
    exact hdup a ha ⟨s3, s1⟩

/-- Overwriting a heap cell with a non-ACTIVA object can only deactivate. -/
theorem esActiva_set_inactiva (heap : List Reserva) (rid : Nat) (r : Reserva)
    (hr : r.estado ≠ .activa) (i : Nat)
    (h : esActiva (heap.set rid r) i = true) : esActiva heap i = true := by
  by_cases hi : i = rid
  · subst hi
    by_cases hlt : i < heap.length
    · rw [esActiva, heapGet_set_self heap i r hlt] at h
      exact absurd (by simpa using h) hr
    · rwa [heapGet_set_oob heap i r hlt] at h
  · rwa [esActiva, heapGet_set_ne heap rid i r hi] at h

/-- Overwriting a heap cell with an object of the same passenger never
changes any document. -/
theorem docDe_set_mismo_pasajero (heap : List Reserva) (rid : Nat) (r : Reserva)
    (hr : r.pasajero = (heapGet heap rid).pasajero) (i : Nat) :
    docDe (heap.set rid r) i = docDe heap i := by
  by_cases hi : i = rid
  · subst hi
    by_cases hlt : i < heap.length
    · rw [docDe, heapGet_set_self heap i r hlt, hr, docDe]
    · rw [heapGet_set_oob heap i r hlt]
  · rw [docDe, heapGet_set_ne heap rid i r hi, docDe]

theorem InvVuelo_set_inactiva (heap : List Reserva) (rid : Nat) (r : Reserva)
    (hr : r.estado ≠ .activa) (hp : r.pasajero = (heapGet heap rid).pasajero)
    (v : Vuelo) (hv : InvVuelo heap v) : InvVuelo (heap.set rid r) v := by
  obtain ⟨hcap, hbound, hdisp, hsin⟩ := hv
  refine ⟨hcap, ?_, ?_, ?_⟩
  · intro i hi
    rw [List.length_set]
    exact hbound i hi
  · rw [capacidad_disponible_eq]
    rw [capacidad_disponible_eq] at hdisp
    have hmono := cuentaActivas_mono heap (heap.set rid r) v.reservas
      (esActiva_set_inactiva heap rid r hr)
    omega
  · refine List.Pairwise.imp ?_ hsin
    intro a b hR hS
    refine hR ?_
    obtain ⟨s1, s2, s3⟩ := hS
    rw [docDe_set_mismo_pasajero heap rid r hp a,
        docDe_set_mismo_pasajero heap rid r hp b] at s3
    exact ⟨esActiva_set_inactiva heap rid r hr a s1,
           esActiva_set_inactiva heap rid r hr b s2, s3⟩

/-! ## Lookup and update lemmas -/

theorem buscarDoc_eq_find (l : List Pasajero) (d : String) :
    buscarDoc l d = l.find? (fun p => p.documento == d) := by
  induction l with
  | nil => rfl
  | cons p resto ih =>
    unfold buscarDoc
    rw [List.find?_cons]
    by_cases h : p.documento == d
    · simp [h]
    · simp only [h]
      simpa using ih

theorem buscarNum_eq_find (l : List Vuelo) (n : String) :
    buscarNum l n = l.find? (fun v => v.numero == n) := by
  induction l with
  | nil => rfl
  | cons v resto ih =>
    unfold buscarNum
    rw [List.find?_cons]
    by_cases h : v.numero == n
    · simp [h]
    · simp only [h]
      simpa using ih

theorem buscarDoc_none (l : List Pasajero) (d : String)
    (h : ∀ p ∈ l, p.documento ≠ d) : buscarDoc l d = none := by
  induction l with
  | nil => rfl
  | cons p resto ih =>
    unfold buscarDoc
    rw [if_neg (by simpa using h p (List.mem_cons_self p resto))]
    exact ih fun q hq => h q (List.mem_cons_of_mem p hq)

theorem buscarNum_none (l : List Vuelo) (n : String)
    (h : ∀ v ∈ l, v.numero ≠ n) : buscarNum l n = none := by
  induction l with
  | nil => rfl
  | cons v resto ih =>
    unfold buscarNum
    rw [if_neg (by simpa using h v (List.mem_cons_self v resto))]
    exact ih fun w hw => h w (List.mem_cons_of_mem v hw)

theorem buscarDoc_primero (l : List Pasajero) (d : String) (p : Pasajero)
    (h : buscarDoc l d = some p) :
    ∃ l1 l2, l = l1 ++ p :: l2 ∧ p.documento = d ∧ ∀ x ∈ l1, x.documento ≠ d := by
  induction l with
  | nil => exact absurd h (by simp [buscarDoc])
  | cons q resto ih =>
    unfold buscarDoc at h
    by_cases hq : q.documento == d
    · rw [if_pos hq] at h
      injection h with h
      subst h
      exact ⟨[], resto, rfl, by simpa using hq, by simp⟩
    · rw [if_neg hq] at h
      obtain ⟨l1, l2, he, hd, hall⟩ := ih h
      refine ⟨q :: l1, l2, by rw [he]; rfl, hd, ?_⟩
      intro x hx
      rcases List.mem_cons.1 hx with h1 | h2
      · subst h1; simpa using hq
      · exact hall x h2

theorem buscarNum_primero (l : List Vuelo) (n : String) (v : Vuelo)
    (h : buscarNum l n = some v) :
    ∃ l1 l2, l = l1 ++ v :: l2 ∧ v.numero = n ∧ ∀ x ∈ l1, x.numero ≠ n := by
  induction l with
  | nil => exact absurd h (by simp [buscarNum])
  | cons w resto ih =>
    unfold buscarNum at h
    by_cases hw : w.numero == n
    · rw [if_pos hw] at h
      injection h with h
      subst h
      exact ⟨[], resto, rfl, by simpa using hw, by simp⟩
    · rw [if_neg hw] at h
      obtain ⟨l1, l2, he, hd, hall⟩ := ih h
      refine ⟨w :: l1, l2, by rw [he]; rfl, hd, ?_⟩
      intro x hx
      rcases List.mem_cons.1 hx with h1 | h2
      · subst h1; simpa using hw
      · exact hall x h2

theorem buscarNum_mem (l : List Vuelo) (n : String) (v : Vuelo)
    (h : buscarNum l n = some v) : v ∈ l := by
  obtain ⟨l1, l2, he, _, _⟩ := buscarNum_primero l n v h
  rw [he]
  exact List.mem_append.2 (.inr (List.mem_cons_self v l2))

theorem buscarDoc_mem (l : List Pasajero) (d : String) (p : Pasajero)
    (h : buscarDoc l d = some p) : p ∈ l := by
  obtain ⟨l1, l2, he, _, _⟩ := buscarDoc_primero l d p h
  rw [he]
  exact List.mem_append.2 (.inr (List.mem_cons_self p l2))

theorem setFirstVuelo_mem (l : List Vuelo) (n : String) (v2 x : Vuelo)
    (h : x ∈ setFirstVuelo l n v2) : x ∈ l ∨ x = v2 := by
  induction l with
  | nil => exact absurd h (by simp [setFirstVuelo])
  | cons w resto ih =>
    unfold setFirstVuelo at h
    by_cases hw : w.numero == n
    · rw [if_pos hw] at h
      rcases List.mem_cons.1 h with h1 | h2
      · exact .inr h1
      · exact .inl (List.mem_cons_of_mem w h2)
    · rw [if_neg hw] at h
      rcases List.mem_cons.1 h with h1 | h2
      · exact .inl (h1 ▸ List.mem_cons_self w resto)
      · rcases ih h2 with h3 | h4
        · exact .inl (List.mem_cons_of_mem w h3)
        · exact .inr h4

/-! ## Seeding lemmas -/

theorem mem_foldl_ok {α β : Type} (f : α → Except DomainError β) (l : List α) :
    ∀ (acc : List β) (x : β),
      x ∈ l.foldl (fun a t => match f t with | .ok b => a ++ [b] | .error _ => a) acc →
      x ∈ acc ∨ ∃ t, f t = .ok x := by
  induction l with
  | nil => intro acc x h; exact .inl h
  | cons hd tl ih =>
    intro acc x h
    rw [List.foldl_cons] at h
    rcases hf : f hd with e | b <;> rw [hf] at h
    · exact ih acc x h
    · rcases ih _ x h with hmem | ⟨t, ht⟩
      · rcases List.mem_append.1 hmem with h1 | h2
        · exact .inl h1
        · exact .inr ⟨hd, by rw [hf, List.mem_singleton.1 h2]⟩
      · exact .inr ⟨t, ht⟩

theorem validar_capacidad_ok (c c2 : Int) (h : validar_capacidad c = .ok c2) :
    1 ≤ c2 ∧ c2 ≤ 1000 := by
  unfold validar_capacidad at h
  split at h
  · exact absurd h (by simp)
  · split at h
    · exact absurd h (by simp)
    · injection h with h
      omega

theorem mkVuelo_ok (n o de f : String) (c : Int) (v : Vuelo)
    (h : mkVuelo n o de f c = .ok v) :
    v.reservas = [] ∧ 1 ≤ v.capacidadTotal := by
  unfold mkVuelo at h
  split at h
  · exact absurd h (by simp)
  · split at h
    · exact absurd h (by simp)
    · split at h
      · exact absurd h (by simp)
      · split at h
        · exact absurd h (by simp)
        · split at h
          · exact absurd h (by simp)
          · rename_i hc
            injection h with h
            subst h
            exact ⟨rfl, (validar_capacidad_ok c _ hc).1⟩

theorem InvVuelo_nuevo (heap : List Reserva) (v : Vuelo)
    (hres : v.reservas = []) (hcap : 1 ≤ v.capacidadTotal) :
    InvVuelo heap v := by
  refine ⟨hcap, ?_, ?_, ?_⟩
  · rw [hres]; simp
  · rw [capacidad_disponible_eq, hres]
    simp [cuentaActivas]
    omega
  · rw [SinDobleActiva, hres]
    exact List.Pairwise.nil

theorem InvGestor_inicial : InvGestor gestorInicial := by
  intro v hv
  have hv2 : v ∈ initVuelos := hv
  rw [initVuelos] at hv2
  rcases mem_foldl_ok (fun t => mkVuelo t.1 t.2.1 t.2.2.1 t.2.2.2.1 t.2.2.2.2)
      datosVuelos [] v hv2 with h | ⟨t, ht⟩
  · exact absurd h (by simp)
  · obtain ⟨h1, h2⟩ := mkVuelo_ok _ _ _ _ _ v ht
    exact InvVuelo_nuevo _ v h1 h2

/-! ## Reservation state-machine lemmas -/

theorem cancelar_ok_elim (r r2 : Reserva) (h : r.cancelar = .ok r2) :
    r.estado = .activa ∧ r2 = { r with estado := .cancelada } := by
  unfold Reserva.cancelar at h
  split at h
  · exact absurd h (by simp)
  · rename_i hr
    injection h with h
    exact ⟨by simpa using hr, h.symm⟩

theorem completar_ok_elim (r r2 : Reserva) (h : r.completar = .ok r2) :
    r.estado = .activa ∧ r2 = { r with estado := .completada } := by
  unfold Reserva.completar at h
  split at h
  · exact absurd h (by simp)
  · rename_i hr
    injection h with h
    exact ⟨by simpa using hr, h.symm⟩

/-! ## Invariant preservation for each public operation -/

theorem agregar_pasajero_conserva (g : GestorReservas) (n a d : String) :
    (agregar_pasajero g n a d).1.vuelos = g.vuelos
    ∧ (agregar_pasajero g n a d).1.heap = g.heap := by
  unfold agregar_pasajero
  split
  · exact ⟨rfl, rfl⟩
  · split <;> exact ⟨rfl, rfl⟩

theorem InvGestor_crear (g : GestorReservas) (nv dp : String)
    (ih : InvGestor g) : InvGestor (crear_reserva g nv dp).1 := by
  unfold crear_reserva
  split
  · exact ih
  · rename_i pasajero hp
    split
    · exact ih
    · rename_i vuelo hv
      split
      · rename_i e ha
        intro w hw
        exact InvVuelo_append g.heap _ w (ih w hw)
      · rename_i v2 ha
        intro w hw
        rcases setFirstVuelo_mem g.vuelos vuelo.numero v2 w hw with h1 | h2
        · exact InvVuelo_append g.heap _ w (ih w h1)
        · have hmem : vuelo ∈ g.vuelos := buscarNum_mem g.vuelos nv vuelo hv
          have hinv1 : InvVuelo (g.heap ++ [mkReserva vuelo.numero pasajero]) vuelo :=
            InvVuelo_append g.heap _ vuelo (ih vuelo hmem)
          rw [h2]
          refine InvVuelo_agregar _ vuelo v2 g.heap.length ?_ ha hinv1
          simp

theorem InvGestor_cancelar (g : GestorReservas) (rid : Nat)
    (ih : InvGestor g) : InvGestor (cancelar_reserva_obj g rid).1 := by
  unfold cancelar_reserva_obj cancelarEnHeap
  cases hc : (heapGet g.heap rid).cancelar with
  | error e => exact ih
  | ok r2 =>
    obtain ⟨_, hr2⟩ := cancelar_ok_elim _ r2 hc
    intro w hw
    refine InvVuelo_set_inactiva g.heap rid r2 ?_ ?_ w (ih w hw)
    · rw [hr2]; simp
    · rw [hr2]

theorem InvGestor_completar (g : GestorReservas) (rid : Nat)
    (ih : InvGestor g) : InvGestor (completar_reserva_obj g rid).1 := by
  unfold completar_reserva_obj completarEnHeap
  cases hc : (heapGet g.heap rid).completar with
  | error e => exact ih
  | ok r2 =>
    obtain ⟨_, hr2⟩ := completar_ok_elim _ r2 hc
    intro w hw
    refine InvVuelo_set_inactiva g.heap rid r2 ?_ ?_ w (ih w hw)
    · rw [hr2]; simp
    · rw [hr2]

theorem InvGestor_agregarEn (g : GestorReservas) (i rid : Nat)
    (hlt : rid < g.heap.length) (ih : InvGestor g) :
    InvGestor (agregarReservaEn g i rid) := by
  unfold agregarReservaEn
  split
  · exact ih
  · rename_i v hv
    split
    · exact ih
    · rename_i v2 ha
      intro w hw
      rcases List.mem_or_eq_of_mem_set hw with h1 | h2
      · exact ih w h1
      · rw [h2]
        have hmem : v ∈ g.vuelos := List.getElem?_mem hv
        exact InvVuelo_agregar g.heap v v2 rid hlt ha (ih v hmem)

/-- The central invariant: every reachable registry state is well formed —
for every flight, the total capacity is positive, the reservation indices
are allocated, the available capacity is nonnegative, and no passenger has
two active reservations on the same flight. -/
theorem invariante_alcanzable (g : GestorReservas) (h : Alcanzable g) :
    InvGestor g := by
  induction h with
  | inicial => exact InvGestor_inicial
  | pasoAgregarPasajero g n a d _ ih =>
    intro v hv
    obtain ⟨h1, h2⟩ := agregar_pasajero_conserva g n a d
    rw [h2]
    exact ih v (h1 ▸ hv)
  | pasoCrearReserva g nv dp _ ih => exact InvGestor_crear g nv dp ih
  | pasoCancelar g rid hlt _ ih => exact InvGestor_cancelar g rid ih
  | pasoCompletar g rid hlt _ ih => exact InvGestor_completar g rid ih
  | pasoNuevoVuelo g n o de f c v hok _ ih =>
    intro w hw
    rcases List.mem_append.1 hw with h1 | h2
    · exact ih w h1
    · obtain ⟨hr, hc⟩ := mkVuelo_ok _ _ _ _ _ _ hok
      rw [List.mem_singleton.1 h2]
      exact InvVuelo_nuevo _ v hr hc
  | pasoNuevaReserva g numero p _ ih =>
    intro v hv
    exact InvVuelo_append g.heap _ v (ih v hv)
  | pasoAgregarReserva g i rid hlt _ ih => exact InvGestor_agregarEn g i rid hlt ih

/-! ## Cancellation transfer lemmas -/

theorem cancelar_error_elim (r : Reserva) (e : DomainError)
    (h : r.cancelar = .error e) : r.estado ≠ .activa := by
  unfold Reserva.cancelar at h
  split at h
  · rename_i hr
    simpa using hr
  · exact absurd h (by simp)

/-- After `cancelar` on the object `rid`, an index that is still ACTIVE was
ACTIVE before and is not `rid`. -/
theorem cancelarEnHeap_act (heap : List Reserva) (rid j : Nat)
    (h : esActiva (cancelarEnHeap heap rid).1 j = true) :
    esActiva heap j = true ∧ j ≠ rid := by
  unfold cancelarEnHeap at h
  cases hc : (heapGet heap rid).cancelar with
  | error e =>
    rw [hc] at h
    refine ⟨h, ?_⟩
    intro hj
    subst hj
    have := cancelar_error_elim _ e hc
    rw [esActiva] at h
    exact this (by simpa using h)
  | ok r2 =>
    rw [hc] at h
    obtain ⟨hact, hr2⟩ := cancelar_ok_elim _ r2 hc
    have hlt : rid < heap.length := by
      by_contra hge
      have hd : heapGet heap rid = reservaDefault := by
        rw [heapGet, List.getD_eq_getElem?_getD, List.getElem?_eq_none]
        · rfl
        · omega
      rw [hd] at hact
      exact absurd hact (by simp [reservaDefault])
    constructor
    · exact esActiva_set_inactiva heap rid r2 (by rw [hr2]; simp) j h
    · intro hj
      subst hj
      rw [esActiva, heapGet_set_self heap j r2 hlt, hr2] at h
      simp at h

theorem cancelarEnHeap_doc (heap : List Reserva) (rid j : Nat) :
    docDe (cancelarEnHeap heap rid).1 j = docDe heap j := by
  unfold cancelarEnHeap
  cases hc : (heapGet heap rid).cancelar with
  | error e => rfl
  | ok r2 =>
    obtain ⟨_, hr2⟩ := cancelar_ok_elim _ r2 hc
    exact docDe_set_mismo_pasajero heap rid r2 (by rw [hr2]) j

/-! ## Validator characterizations -/

theorem validar_nombre_valido (s : String) (h : nombreValido s) :
    validar_nombre s = .ok (pyTitle (pyStrip s)) := by
  obtain ⟨h1, h2, h3⟩ := h
  have hne : (pyStrip s).data.isEmpty = false := by
    cases hd : (pyStrip s).data with
    | nil => rw [hd] at h2; simp at h2
    | cons c t => rfl
  have hall : (pyStrip s).data.all esCaracterNombre = true := List.all_eq_true.mpr h3
  unfold validar_nombre
  rw [if_neg (by simp [h1]), if_neg (by omega), if_neg (by simp [hne, hall])]

theorem validar_nombre_invalido (s : String) (h : ¬nombreValido s) :
    ∃ m, validar_nombre s = .error (.valueError m) := by
  unfold validar_nombre
  split
  · exact ⟨_, rfl⟩
  · split
    · exact ⟨_, rfl⟩
    · split
      · exact ⟨_, rfl⟩
      · rename_i g1 g2 g3
        exfalso
        refine h ⟨?_, by omega, ?_⟩
        · intro he
          exact g1 (by simp [he])
        · have hx : ((!(pyStrip s).data.isEmpty && (pyStrip s).data.all esCaracterNombre))
              = true := by simpa using g3
          rw [Bool.and_eq_true] at hx
          exact List.all_eq_true.mp hx.2

theorem validar_documento_valido (s : String) (h : documentoValido s) :
    validar_documento s = .ok (pyStrip s) := by
  obtain ⟨h1, h2, h3⟩ := h
  have hne : pyStrip s ≠ "" := by
    intro he
    rw [he] at h2
    simp at h2
  have hall : (pyStrip s).data.all Char.isDigit = true := List.all_eq_true.mpr h1
  have h2l : 5 ≤ (pyStrip s).length := h2
  have h3l : (pyStrip s).length ≤ 12 := h3
  unfold validar_documento
  rw [if_neg (by simp [hne]), if_neg (by simp [hall]; omega)]

theorem validar_documento_invalido (s : String) (h : ¬documentoValido s) :
    ∃ m, validar_documento s = .error (.valueError m) := by
  unfold validar_documento
  split
  · exact ⟨_, rfl⟩
  · split
    · exact ⟨_, rfl⟩
    · rename_i g1 g2
      exfalso
      have hx : ((pyStrip s).data.all Char.isDigit
          && decide (5 ≤ (pyStrip s).data.length)
          && decide ((pyStrip s).data.length ≤ 12)) = true := by
        simpa using g2
      rw [Bool.and_eq_true, Bool.and_eq_true] at hx
      refine h ⟨List.all_eq_true.mp hx.1.1, ?_, ?_⟩
      · simpa using hx.1.2
      · simpa using hx.2

/-! ## Claim theorems -/

/-- C1: `crear_reserva` is atomic.  On any failure (passenger not found,
flight not found, capacity exhausted, duplicate active booking) the
registry's passenger list, flight list (hence every flight's reservation
list) and global reservation history are unchanged — the constructed
reservation object leaves no observable trace.  On success the new
reservation index is appended both to the found flight's list and to the
registry's history, and is returned. -/
theorem crear_reserva_atomica :
    ∀ (g : GestorReservas) (nv dp : String),
      (esError (crear_reserva g nv dp).2 = true →
        (crear_reserva g nv dp).1.pasajeros = g.pasajeros
        ∧ (crear_reserva g nv dp).1.vuelos = g.vuelos
        ∧ (crear_reserva g nv dp).1.reservas = g.reservas)
      ∧ (∀ rid, (crear_reserva g nv dp).2 = .ok rid →
          rid = g.heap.length
          ∧ ∃ p v, buscar_pasajero_por_documento g dp = some p
            ∧ buscar_vuelo_por_numero g nv = some v
            ∧ (crear_reserva g nv dp).1.heap = g.heap ++ [mkReserva v.numero p]
            ∧ (crear_reserva g nv dp).1.reservas = g.reservas ++ [rid]
            ∧ (crear_reserva g nv dp).1.vuelos
                = setFirstVuelo g.vuelos v.numero
                    { v with reservas := v.reservas ++ [rid] }) := by
  intro g nv dp
  unfold crear_reserva
  split
  · exact ⟨fun _ => ⟨rfl, rfl, rfl⟩, fun rid h => by simp at h⟩
  · rename_i pasajero hp
    split
    · exact ⟨fun _ => ⟨rfl, rfl, rfl⟩, fun rid h => by simp at h⟩
    · rename_i vuelo hv
      split
      · rename_i e ha
        exact ⟨fun _ => ⟨rfl, rfl, rfl⟩, fun rid h => by simp at h⟩
      · rename_i v2 ha
        refine ⟨fun h => by simp [esError] at h, ?_⟩
        intro rid h
        have hrid : rid = g.heap.length := by
          injection h with h
          exact h.symm
        subst hrid
        obtain ⟨_, _, hv2⟩ := agregar_reserva_ok_elim _ vuelo g.heap.length v2 ha
        exact ⟨rfl, pasajero, vuelo, hp, hv, rfl, rfl, by rw [hv2]⟩

/-- C1 witness: booking an unknown flight number on the seeded registry
fails and leaves the reservation history unchanged. -/
theorem crear_reserva_atomica_testigo :
    (crear_reserva gestorInicial "Z001" "12345678").1.reservas
      = gestorInicial.reservas :=
  ((crear_reserva_atomica gestorInicial "Z001" "12345678").1 (by decide)).2.2

/-- C2: in every reachable registry state, every flight's available
capacity equals its total capacity minus the number of ACTIVE reservations
in its list (recomputed from the list: `capacidad_disponible` is a pure
function of the heap and the flight, with no stored counter), and is
nonnegative. -/
theorem capacidad_disponible_derivada_y_no_negativa :
    ∀ g, Alcanzable g → ∀ v ∈ g.vuelos,
      capacidad_disponible g.heap v
          = v.capacidadTotal - (cuentaActivas g.heap v.reservas : Int)
      ∧ 0 ≤ capacidad_disponible g.heap v := by
  intro g hg v hv
  exact ⟨capacidad_disponible_eq g.heap v, (invariante_alcanzable g hg v hv).2.2.1⟩

/-- C2 witness: the invariant evaluated on flight `V001` of the seeded
registry. -/
theorem capacidad_disponible_derivada_y_no_negativa_testigo :
    0 ≤ capacidad_disponible gestorInicial.heap vueloV001 :=
  (capacidad_disponible_derivada_y_no_negativa gestorInicial Alcanzable.inicial
    vueloV001 (by decide)).2

/-- C5: the reservation state machine.  A freshly constructed reservation
is ACTIVE; `cancelar` and `completar` succeed exactly from ACTIVE, moving
to CANCELLED resp. COMPLETED; on a non-ACTIVE reservation both fail with
the `InvalidStateError` message and return no new state; and from either
terminal state every further transition fails, so each transition can
succeed at most once. -/
theorem maquina_estados_reserva :
    ∀ (nv : String) (p : Pasajero) (r : Reserva),
      (mkReserva nv p).estado = .activa
      ∧ (r.estado = .activa →
          r.cancelar = .ok { r with estado := .cancelada }
          ∧ r.completar = .ok { r with estado := .completada })
      ∧ (r.estado ≠ .activa →
          r.cancelar = .error (.reservaException "Solo se pueden cancelar reservas activas")
          ∧ r.completar = .error (.reservaException "Solo se pueden completar reservas activas"))
      ∧ (∀ r2, r.cancelar = .ok r2 →
          esError r2.cancelar = true ∧ esError r2.completar = true)
      ∧ (∀ r2, r.completar = .ok r2 →
          esError r2.cancelar = true ∧ esError r2.completar = true) := by
  intro nv p r
  refine ⟨rfl, ?_, ?_, ?_, ?_⟩
  · intro h
    constructor
    · rw [Reserva.cancelar, if_neg (by simp [h])]
    · rw [Reserva.completar, if_neg (by simp [h])]
  · intro h
    constructor
    · rw [Reserva.cancelar, if_pos h]
    · rw [Reserva.completar, if_pos h]
  · intro r2 h
    obtain ⟨_, hr2⟩ := cancelar_ok_elim r r2 h
    constructor
    · rw [Reserva.cancelar, if_pos (by rw [hr2]; simp)]
      rfl
    · rw [Reserva.completar, if_pos (by rw [hr2]; simp)]
      rfl
  · intro r2 h
    obtain ⟨_, hr2⟩ := completar_ok_elim r r2 h
    constructor
    · rw [Reserva.cancelar, if_pos (by rw [hr2]; simp)]
      rfl
    · rw [Reserva.completar, if_pos (by rw [hr2]; simp)]
      rfl

/-- C5 witness: the new reservation for `pasajeroJuan` is ACTIVE, cancels
once, and a second cancellation of the cancelled object fails. -/
theorem maquina_estados_reserva_testigo :
    (mkReserva "V001" pasajeroJuan).estado = .activa
    ∧ (mkReserva "V001" pasajeroJuan).cancelar
        = .ok { mkReserva "V001" pasajeroJuan with estado := .cancelada }
    ∧ esError ({ mkReserva "V001" pasajeroJuan with
        estado := EstadoReserva.cancelada }).cancelar = true := by
  have h := maquina_estados_reserva "V001" pasajeroJuan (mkReserva "V001" pasajeroJuan)
  have h2 := maquina_estados_reserva "V001" pasajeroJuan
    { mkReserva "V001" pasajeroJuan with estado := EstadoReserva.cancelada }
  exact ⟨h.1, (h.2.1 rfl).1, ((h2.2.2.1 (by simp)).1 ▸ rfl)⟩

/-- C8: entity equality is identity-key equality — two passengers are
equal exactly when their documents are equal (names play no role), and two
flights are equal exactly when their numbers are equal. -/
theorem igualdad_por_clave :
    ∀ (p q : Pasajero) (f h : Vuelo),
      (pasajeroEq p q = true ↔ p.documento = q.documento)
      ∧ (vueloEq f h = true ↔ f.numero = h.numero) := by
  intro p q f h
  constructor
  · simp [pasajeroEq]
  · simp [vueloEq]

/-- C8 witness: two passengers with different names but the same document
compare equal. -/
theorem igualdad_por_clave_testigo :
    pasajeroEq { nombre := "Juan", apellido := "Perez", documento := "12345678" }
      { nombre := "Maria", apellido := "Gomez", documento := "12345678" } = true :=
  (igualdad_por_clave { nombre := "Juan", apellido := "Perez", documento := "12345678" }
    { nombre := "Maria", apellido := "Gomez", documento := "12345678" }
    vueloV001 vueloV001).1.mpr rfl

/-- C9: `agregar_reserva` never inspects the reservation's own flight
reference: a reservation constructed for a different flight passes only the
capacity and duplicate-active-passenger checks and, when they pass, is
appended to this flight's list — and, being ACTIVE, it then counts against
this flight's capacity. -/
theorem agregar_reserva_ignora_vuelo_ajeno :
    ∀ (heap : List Reserva) (v : Vuelo) (rid : Nat),
      (heapGet heap rid).vueloNumero ≠ v.numero →
      0 < capacidad_disponible heap v →
      (∀ j ∈ v.reservas, ¬(docDe heap j = docDe heap rid ∧ esActiva heap j = true)) →
      agregar_reserva heap v rid = .ok { v with reservas := v.reservas ++ [rid] }
      ∧ ((heapGet heap rid).estado = .activa →
          capacidad_disponible heap { v with reservas := v.reservas ++ [rid] }
            = capacidad_disponible heap v - 1) := by
  intro heap v rid hforeign hcap hdup
  refine ⟨agregar_reserva_ok_intro heap v rid hcap hdup, ?_⟩
  intro hact
  rw [capacidad_disponible_eq, capacidad_disponible_eq]
  have hcount : cuentaActivas heap (v.reservas ++ [rid])
      = cuentaActivas heap v.reservas + 1 := by
    rw [cuentaActivas_append_one, if_pos (by simp [esActiva, hact])]
  simp only [hcount]
  push_cast
  ring

/-- C9 witness: a reservation referencing flight `B222` is accepted by
flight `A111` and consumes one seat of `A111`. -/
theorem agregar_reserva_ignora_vuelo_ajeno_testigo :
    agregar_reserva heapAjeno vueloA111 0 = .ok { vueloA111 with reservas := [0] }
    ∧ capacidad_disponible heapAjeno { vueloA111 with reservas := [0] }
        = capacidad_disponible heapAjeno vueloA111 - 1 := by
  have h := agregar_reserva_ignora_vuelo_ajeno heapAjeno vueloA111 0
    (by decide) (by decide) (by simp [vueloA111])
  exact ⟨h.1, h.2 (by decide)⟩

/-- C10: both lookups compare the raw query verbatim against the stored
normalized keys (`List.find?` over the stored list): any query differing
from every stored key — even only in case or surrounding whitespace —
returns `none`, and a hit is the first stored match in insertion order. -/
theorem busquedas_literales :
    ∀ (g : GestorReservas) (q : String),
      buscar_pasajero_por_documento g q = g.pasajeros.find? (fun p => p.documento == q)
      ∧ buscar_vuelo_por_numero g q = g.vuelos.find? (fun v => v.numero == q)
      ∧ ((∀ p ∈ g.pasajeros, p.documento ≠ q) → buscar_pasajero_por_documento g q = none)
      ∧ ((∀ v ∈ g.vuelos, v.numero ≠ q) → buscar_vuelo_por_numero g q = none)
      ∧ (∀ p, buscar_pasajero_por_documento g q = some p →
          ∃ l1 l2, g.pasajeros = l1 ++ p :: l2 ∧ p.documento = q
            ∧ ∀ x ∈ l1, x.documento ≠ q)
      ∧ (∀ v, buscar_vuelo_por_numero g q = some v →
          ∃ l1 l2, g.vuelos = l1 ++ v :: l2 ∧ v.numero = q
            ∧ ∀ x ∈ l1, x.numero ≠ q) := by
  intro g q
  exact ⟨buscarDoc_eq_find g.pasajeros q, buscarNum_eq_find g.vuelos q,
         buscarDoc_none g.pasajeros q, buscarNum_none g.vuelos q,
         fun p h => buscarDoc_primero g.pasajeros q p h,
         fun v h => buscarNum_primero g.vuelos q v h⟩

/-- C10 witness: the seeded registry stores flight `V001`; the query
`v001` (same number, wrong case) misses. -/
theorem busquedas_literales_testigo :
    buscar_vuelo_por_numero gestorInicial "v001" = none :=
  (busquedas_literales gestorInicial "v001").2.2.2.1 (by decide)

/-- C3: the document-uniqueness invariant is violated by the code.  The
duplicate scan of `agregar_pasajero` compares stored (stripped) documents
against the raw input, while the constructor strips the input: on the
seeded registry (which stores document `12345678`), adding a passenger with
document `" 12345678"` (leading space) succeeds, after which two stored
passengers carry the same normalized document. -/
theorem documento_duplicado_por_normalizacion :
    pasajeroJuan ∈ gestorInicial.pasajeros
    ∧ esError (agregar_pasajero gestorInicial "Juan" "Perez" " 12345678").2 = false
    ∧ ((agregar_pasajero gestorInicial "Juan" "Perez" " 12345678").1.pasajeros.countP
        (fun p => p.documento == "12345678")) = 2 :=
  ⟨by decide, by decide, by decide⟩

/-- C4 counterexample: on a full flight that already holds an ACTIVE
reservation for the passenger, rebooking the same pair does fail — but with
the `CapacityError` message, not `DuplicateBookingError`, because
`agregar_reserva` checks capacity before scanning for duplicates.  The
state is built by the public operations: `gestorLleno` is the seeded
registry plus the constructor-validated capacity-1 flight `Z999`, after one
successful booking. -/
theorem duplicado_en_vuelo_lleno_da_error_de_capacidad :
    mkVuelo "Z999" "Roma" "Lima" "2024-05-01" 1 = .ok vueloZ999
    ∧ buscar_vuelo_por_numero gestorLleno "Z999"
        = some { vueloZ999 with reservas := [0] }
    ∧ esActiva gestorLleno.heap 0 = true
    ∧ docDe gestorLleno.heap 0 = "12345678"
    ∧ (crear_reserva gestorLleno "Z999" "12345678").2
        = .error (.reservaException "No hay capacidad disponible en este vuelo") :=
  ⟨by decide, by decide, by decide, by decide, by decide⟩

/-- C4 (amended): rebooking a (flight, passenger) pair that already has an
ACTIVE reservation always fails and changes nothing — with
`DuplicateBookingError` when available capacity is positive and with
`CapacityError` when the flight is full (capacity is checked first); after
cancelling the pair's active reservation a new booking succeeds, given
available capacity; and in every reachable state no flight holds two
ACTIVE reservations for the same passenger document. -/
theorem reserva_duplicada_correcta :
    (∀ (heap : List Reserva) (v : Vuelo) (rid j : Nat),
      j ∈ v.reservas → esActiva heap j = true → docDe heap j = docDe heap rid →
      esError (agregar_reserva heap v rid) = true)
    ∧ (∀ (heap : List Reserva) (v : Vuelo) (rid j : Nat),
      j ∈ v.reservas → esActiva heap j = true → docDe heap j = docDe heap rid →
      0 < capacidad_disponible heap v →
      agregar_reserva heap v rid
        = .error (.reservaException "Este pasajero ya tiene una reserva activa en este vuelo"))
    ∧ (∀ (heap : List Reserva) (v : Vuelo) (rid : Nat),
      capacidad_disponible heap v ≤ 0 →
      agregar_reserva heap v rid
        = .error (.reservaException "No hay capacidad disponible en este vuelo"))
    ∧ (∀ (heap : List Reserva) (v : Vuelo) (rid rid2 : Nat),
      (∀ j ∈ v.reservas, esActiva heap j = true → docDe heap j = docDe heap rid2 → j = rid) →
      0 < capacidad_disponible (cancelarEnHeap heap rid).1 v →
      agregar_reserva (cancelarEnHeap heap rid).1 v rid2
        = .ok { v with reservas := v.reservas ++ [rid2] })
    ∧ (∀ g, Alcanzable g → ∀ v ∈ g.vuelos, SinDobleActiva g.heap v.reservas) := by
  refine ⟨?_, ?_, ?_, ?_, ?_⟩
  · intro heap v rid j hj hact hdoc
    unfold agregar_reserva
    by_cases hc : capacidad_disponible heap v ≤ 0
    · rw [if_pos hc]
      rfl
    · rw [if_neg hc, if_pos]
      · rfl
      · rw [List.any_eq_true]
        refine ⟨j, hj, ?_⟩
        rw [Bool.and_eq_true]
        exact ⟨by simpa [pasajeroEq, docDe] using hdoc, hact⟩
  · intro heap v rid j hj hact hdoc hcap
    unfold agregar_reserva
    rw [if_neg (by omega), if_pos]
    rw [List.any_eq_true]
    refine ⟨j, hj, ?_⟩
    rw [Bool.and_eq_true]
    exact ⟨by simpa [pasajeroEq, docDe] using hdoc, hact⟩
  · intro heap v rid hc
    unfold agregar_reserva
    rw [if_pos hc]
  · intro heap v rid rid2 honly hcap
    refine agregar_reserva_ok_intro _ v rid2 hcap ?_
    intro j hj hpar
    obtain ⟨hdoc, hact⟩ := hpar
    obtain ⟨hactH, hne⟩ := cancelarEnHeap_act heap rid j hact
    rw [cancelarEnHeap_doc heap rid j, cancelarEnHeap_doc heap rid rid2] at hdoc
    exact hne (honly j hj hactH hdoc)
  · intro g hg v hv
    exact (invariante_alcanzable g hg v hv).2.2.2

/-- C4 witness: with capacity left the rebooking error is the duplicate
message; on a full flight it is the capacity message; after cancelling,
the rebooking succeeds; and the seeded registry satisfies the
one-active-per-pair invariant on flight `V001`. -/
theorem reserva_duplicada_correcta_testigo :
    agregar_reserva heapDoble vueloY888 1
      = .error (.reservaException "Este pasajero ya tiene una reserva activa en este vuelo")
    ∧ agregar_reserva heapDoble vueloW777 1
      = .error (.reservaException "No hay capacidad disponible en este vuelo")
    ∧ agregar_reserva (cancelarEnHeap heapDoble 0).1 vueloW777 1
      = .ok { vueloW777 with reservas := [0, 1] }
    ∧ SinDobleActiva gestorInicial.heap vueloV001.reservas := by
  refine ⟨?_, ?_, ?_, ?_⟩
  · exact reserva_duplicada_correcta.2.1 heapDoble vueloY888 1 0
      (by decide) (by decide) (by decide) (by decide)
  · exact reserva_duplicada_correcta.2.2.1 heapDoble vueloW777 1 (by decide)
  · exact reserva_duplicada_correcta.2.2.2.1 heapDoble vueloW777 0 1
      (by decide) (by decide)
  · exact reserva_duplicada_correcta.2.2.2.2 gestorInicial Alcanzable.inicial
      vueloV001 (by decide)

/-- C6 counterexample: `"Hüber"` consists only of Latin letters (so the
claim counts the triple as valid), yet the constructor rejects it, because
the name regex admits only the accented letters `áéíóúÁÉÍÓÚñÑ` and `'ü'`
is not among them. -/
theorem nombre_con_letra_latina_rechazado :
    ((pyStrip "Hüber").data.all (fun c => esLetraLatinaSpec c || c == ' ')) = true
    ∧ 2 ≤ (pyStrip "Hüber").data.length
    ∧ mkPasajero "Hüber" "Gomez" "12345"
        = .error (.valueError "El nombre solo puede contener letras y espacios") :=
  ⟨by decide, by decide, by decide⟩

/-- C6 (amended): for every triple whose names are, after stripping, at
least 2 characters drawn from ASCII letters, the accented letters
`áéíóúÁÉÍÓÚ`, `ñ`/`Ñ` and whitespace, and whose document strips to a 5–12
digit string, the constructor returns the passenger with names stripped
and title-cased and document stripped; for every other input it raises
`ValidationError`. -/
theorem validacion_pasajero_correcta :
    ∀ (n a d : String),
      (nombreValido n → nombreValido a → documentoValido d →
        mkPasajero n a d = .ok { nombre := pyTitle (pyStrip n),
                                 apellido := pyTitle (pyStrip a),
                                 documento := pyStrip d })
      ∧ (¬(nombreValido n ∧ nombreValido a ∧ documentoValido d) →
          ∃ msg, mkPasajero n a d = .error (.valueError msg)) := by
  intro n a d
  constructor
  · intro h1 h2 h3
    unfold mkPasajero
    rw [validar_nombre_valido n h1, validar_nombre_valido a h2,
        validar_documento_valido d h3]
  · intro hng
    unfold mkPasajero
    by_cases h1 : nombreValido n
    · rw [validar_nombre_valido n h1]
      by_cases h2 : nombreValido a
      · rw [validar_nombre_valido a h2]
        by_cases h3 : documentoValido d
        · exact absurd ⟨h1, h2, h3⟩ hng
        · obtain ⟨m, hm⟩ := validar_documento_invalido d h3
          rw [hm]
          exact ⟨m, rfl⟩
      · obtain ⟨m, hm⟩ := validar_nombre_invalido a h2
        rw [hm]
        exact ⟨m, rfl⟩
    · obtain ⟨m, hm⟩ := validar_nombre_invalido n h1
      rw [hm]
      exact ⟨m, rfl⟩

/-- C6 witness: a messy but valid triple normalizes to trimmed title-cased
names and a trimmed document. -/
theorem validacion_pasajero_correcta_testigo :
    mkPasajero " juAN " "pErEz" " 12345 "
      = .ok { nombre := "Juan", apellido := "Perez", documento := "12345" } := by
  have h := (validacion_pasajero_correcta " juAN " "pErEz" " 12345 ").1
    (by decide) (by decide) (by decide)
  rw [h]
  rfl

/-- C7: `agregar_pasajero` fails with `DuplicateDocumentError` exactly when
some stored passenger's document equals the argument, leaving the list
unchanged; otherwise it defers to the validating constructor — a
`ValidationError` also leaves the list unchanged, and on success the new
passenger is appended and returned. -/
theorem agregar_pasajero_correcto :
    ∀ (g : GestorReservas) (n a d : String),
      ((∃ p ∈ g.pasajeros, p.documento = d) →
        agregar_pasajero g n a d
          = (g, .error (.reservaException "Ya existe un pasajero con ese documento")))
      ∧ ((∀ p ∈ g.pasajeros, p.documento ≠ d) →
          (∀ e, mkPasajero n a d = .error e → agregar_pasajero g n a d = (g, .error e))
          ∧ (∀ p, mkPasajero n a d = .ok p →
              agregar_pasajero g n a d
                = ({ g with pasajeros := g.pasajeros ++ [p] }, .ok p))) := by
  intro g n a d
  constructor
  · intro hex
    obtain ⟨p, hp, hd⟩ := hex
    unfold agregar_pasajero
    rw [if_pos]
    rw [List.any_eq_true]
    exact ⟨p, hp, by simp [hd]⟩
  · intro hall
    have hfalse : (g.pasajeros.any fun p => p.documento == d) = false := by
      rw [List.any_eq_false]
      intro p hp
      simp [hall p hp]
    constructor
    · intro e he
      unfold agregar_pasajero
      rw [if_neg (by simp [hfalse]), he]
    · intro p hp2
      unfold agregar_pasajero
      rw [if_neg (by simp [hfalse]), hp2]

/-- C7 witness: re-adding the seeded document `12345678` fails with the
duplicate message and returns the registry unchanged. -/
theorem agregar_pasajero_correcto_testigo :
    agregar_pasajero gestorInicial "Juan" "Perez" "12345678"
      = (gestorInicial,
         .error (.reservaException "Ya existe un pasajero con ese documento")) :=
  (agregar_pasajero_correcto gestorInicial "Juan" "Perez" "12345678").1
    ⟨pasajeroJuan, by decide, rfl⟩

end SistemaReservaVuelos
